import Mathlib

/-!
Shallow embedding of the `llog` package (llog.go): a process-wide leveled
logger with an optional size-rotated log file.

The Go package's mutable globals become the fields of `Llog.LogState`.
Filesystem and standard-library calls (mutex lock/unlock, OpenFile, Sync,
Stat, Close, Remove, Rename, log.SetOutput, log.Output, the runtime panic)
are recorded as an explicit trace of `Llog.Event`s, and the outcomes of the
fallible syscalls (file open, stat) are supplied by an environment so that
both the success and the failure paths of the source can be examined.
Message formatting (fmt.Sprintf) is the external formatting primitive: each
entry point receives the already-formatted message as a string, and the
emitted line is the level tag concatenated with it, exactly as the source
builds `fmt.Sprintf(prefix+format, v...)` from a verb-free tag.
-/

namespace Llog

/-- Where the standard `log` package currently writes: the default stderr
stream, or an open file handle (handles are identified by allocation id). -/
inductive Output where
  | stderr
  | handle (h : Nat)
deriving DecidableEq, Repr

/-- One observable action of the Go code: mutex operations, syscalls with
their outcome, line emission (`log.Output`), and the Go `panic` call. -/
inductive Event where
  | lock
  | unlock
  | openFile (name : String) (ok : Bool)
  | setOutput (o : Output)
  | sync (h : Nat)
  | stat (h : Nat) (ok : Bool)
  | close (h : Nat)
  | remove (name : String)
  | rename (src dst : String)
  | emit (line : String)
  | panicEv (msg : String)
deriving DecidableEq, Repr

/-- The Go error value returned by `SetFile`: `none` models a nil error. -/
inductive GoErr where
  | openErr
deriving DecidableEq, Repr

/-- The package-level mutable state of llog.go, plus the `log` package's
current output destination and a fresh-handle allocator for opened files. -/
structure LogState where
  globLevelSet : Int
  globFileName : String
  globFile : Option Nat
  globMaxSizeKB : Int
  globCounter : Int
  logOutput : Output
  nextHandle : Nat
deriving DecidableEq, Repr

/-- LvlTrace debugging - logs of high frequency. -/
def LvlTrace : Int := 1
/-- LvlDebug debugging - logs of medium frequency. -/
def LvlDebug : Int := 2
/-- LvlInfo debugging - logs of low frequency. -/
def LvlInfo : Int := 3
/-- LvlWarn something goes wrong but is not really an error. -/
def LvlWarn : Int := 4
/-- LvlError an error has occurred. -/
def LvlError : Int := 5
/-- LvlPanic a non-recoverable error has occurred. -/
def LvlPanic : Int := 6

/-- The initial package state: Go zero values for the globals, except
`globLevelSet = LvlInfo` (llog.go line 37); output defaults to stderr. -/
def initState : LogState :=
  { globLevelSet := LvlInfo
    globFileName := ""
    globFile := none
    globMaxSizeKB := 0
    globCounter := 0
    logOutput := Output.stderr
    nextHandle := 0 }

/-- `SetLevel` (llog.go lines 59-61): stores the level unconditionally.
The returned trace is empty: the source body contains no mutex or
library calls. -/
def SetLevel (level : Int) (s : LogState) : LogState × List Event :=
  ({ s with globLevelSet := level }, [])

/-- `SetFile` (llog.go lines 66-79). `openOk` is the outcome of the
`os.OpenFile` syscall. The source assigns `globFileName` before opening;
on error it sets `globFile = nil` and returns the error; on success it
redirects the `log` package to the new handle and stores the size limit. -/
def SetFile (openOk : Bool) (fileName : String) (maxSizeKB : Int)
    (s : LogState) : LogState × List Event × Option GoErr :=
  let s1 : LogState := { s with globFileName := fileName }
  if openOk then
    let h := s1.nextHandle
    ({ s1 with globFile := some h
               nextHandle := h + 1
               logOutput := Output.handle h
               globMaxSizeKB := maxSizeKB },
     [Event.openFile fileName true, Event.setOutput (Output.handle h)],
     none)
  else
    ({ s1 with globFile := none },
     [Event.openFile fileName false],
     some GoErr.openErr)

/-- Outcomes of the fallible syscalls that one `wrapLogIfNeeded` call can
perform: `statResult` is `some size-in-bytes` when `globFile.Stat()`
succeeds and `none` when it errors (in which case the returned FileInfo
interface is nil); `reopenOk` is the outcome of the `os.OpenFile` inside
the recursive `SetFile` call of the rotation branch. -/
structure WrapEnv where
  statResult : Option Nat
  reopenOk : Bool
deriving DecidableEq, Repr

/-- `wrapLogIfNeeded` (llog.go lines 87-111). Result `none` models the Go
runtime panic raised by `info.Size()` when `Stat` failed and `info` is a
nil interface (the error is discarded by `info, _ := globFile.Stat()`).
The deferred `globMutex.Unlock()` runs on every exit path, the panic
included, so every trace ends with `unlock`. -/
def wrapLogIfNeeded (env : WrapEnv) (s : LogState) :
    List Event × Option LogState :=
  match s.globFile with
  | none => ([Event.lock, Event.unlock], some s)
  | some h =>
    let c := s.globCounter + 1
    if c ≥ 20 then
      let s0 : LogState := { s with globCounter := 0 }
      match env.statResult with
      | none =>
        ([Event.lock, Event.sync h, Event.stat h false, Event.unlock], none)
      | some sz =>
        if ((sz / 1024 : Nat) : Int) ≥ s0.globMaxSizeKB then
          let s1 : LogState := { s0 with logOutput := Output.stderr }
          let backupFileName := s1.globFileName ++ ".1"
          let r := SetFile env.reopenOk s1.globFileName s1.globMaxSizeKB s1
          ([Event.lock, Event.sync h, Event.stat h true,
            Event.setOutput Output.stderr, Event.close h,
            Event.remove backupFileName,
            Event.rename s1.globFileName backupFileName]
           ++ r.2.1 ++ [Event.unlock],
           some r.1)
        else
          ([Event.lock, Event.sync h, Event.stat h true, Event.unlock],
           some s0)
    else
      ([Event.lock, Event.unlock], some { s with globCounter := c })

/-- `loglevel` (llog.go lines 113-118): gate check, then the rotation step,
then one `log.Output` of the tag-prefixed formatted message. `msg` is the
already-formatted message (the result of the external Sprintf). A `none`
state propagates the runtime panic out of `wrapLogIfNeeded`. -/
def loglevel (env : WrapEnv) (level : Int) (pfx : String) (msg : String)
    (s : LogState) : List Event × Option LogState :=
  if level ≥ s.globLevelSet then
    let r := wrapLogIfNeeded env s
    match r.2 with
    | none => (r.1, none)
    | some s1 => (r.1 ++ [Event.emit (pfx ++ msg)], some s1)
  else
    ([], some s)

/-- `Trace` (llog.go lines 121-123). -/
def Trace (env : WrapEnv) (msg : String) (s : LogState) :
    List Event × Option LogState :=
  loglevel env LvlTrace "TRACE - " msg s

/-- `Debug` (llog.go lines 126-128). -/
def Debug (env : WrapEnv) (msg : String) (s : LogState) :
    List Event × Option LogState :=
  loglevel env LvlDebug "DEBUG - " msg s

/-- `Info` (llog.go lines 131-133). -/
def Info (env : WrapEnv) (msg : String) (s : LogState) :
    List Event × Option LogState :=
  loglevel env LvlInfo "INFO - " msg s

/-- `Warn` (llog.go lines 136-138). -/
def Warn (env : WrapEnv) (msg : String) (s : LogState) :
    List Event × Option LogState :=
  loglevel env LvlWarn "WARN - " msg s

/-- `Error` (llog.go lines 141-143). -/
def Error (env : WrapEnv) (msg : String) (s : LogState) :
    List Event × Option LogState :=
  loglevel env LvlError "ERROR - " msg s

/-- `Panic` (llog.go lines 147-152): the gate check guards the whole body,
so both the `log.Output` record and the `panic(...)` call happen only when
`LvlPanic >= globLevelSet`; `wrapLogIfNeeded` is never invoked and the
package state is never modified. -/
def Panic (msg : String) (s : LogState) : List Event × LogState :=
  if LvlPanic ≥ s.globLevelSet then
    ([Event.emit ("PANIC - " ++ msg), Event.panicEv msg], s)
  else
    ([], s)

/-- The lines actually written by a trace: the `log.Output` calls. -/
def emitted (evs : List Event) : List String :=
  evs.filterMap fun e =>
    match e with
    | Event.emit line => some line
    | _ => none

/-- A state in which logging goes to an open file `old.log` (handle 0),
with the default gate level and a 10 KB ceiling. -/
def oldFileState : LogState :=
  { globLevelSet := 3
    globFileName := "old.log"
    globFile := some 0
    globMaxSizeKB := 10
    globCounter := 0
    logOutput := Output.handle 0
    nextHandle := 1 }

/-- A file-logging state whose rotation counter is about to reach the
check interval (next log call fires the size check), ceiling 1 KB. -/
def checkState : LogState :=
  { oldFileState with globCounter := 19, globMaxSizeKB := 1 }

/-- The initial state after `SetLevel(7)`: a gate level strictly above
`LvlPanic`. -/
def highGateState : LogState :=
  { initState with globLevelSet := 7 }

/-- The initial state with a nonzero rotation counter. -/
def counterState : LogState :=
  { initState with globCounter := 7 }

theorem emitted_append (a b : List Event) :
    emitted (a ++ b) = emitted a ++ emitted b := by
  simp [emitted]

/-- No branch of the rotation step itself emits a log line: its trace
contains syscall events only. -/
theorem wrap_emitted_nil (env : WrapEnv) (s : LogState) :
    emitted (wrapLogIfNeeded env s).1 = [] := by
  obtain ⟨sr, ro⟩ := env
  rcases hf : s.globFile with _ | h
  · simp [wrapLogIfNeeded, hf, emitted]
  · cases sr <;>
      simp only [wrapLogIfNeeded, hf] <;>
      split_ifs <;>
      simp [emitted, SetFile] <;>
      split_ifs <;>
      simp

/-- When the counter stays below the check interval and a file is active,
the rotation step only takes the lock and increments the counter. -/
theorem wrap_below_interval (env : WrapEnv) (s : LogState) (h : Nat)
    (hf : s.globFile = some h) (hc : s.globCounter + 1 < 20) :
    wrapLogIfNeeded env s
      = ([Event.lock, Event.unlock],
         some { s with globCounter := s.globCounter + 1 }) := by
  simp only [wrapLogIfNeeded, hf]
  rw [if_neg (by omega)]

/-- When the stat syscall succeeds, the rotation step returns normally. -/
theorem wrap_isSome_of_stat (env : WrapEnv) (s : LogState)
    (hs : env.statResult.isSome) :
    (wrapLogIfNeeded env s).2.isSome := by
  obtain ⟨sr, ro⟩ := env
  rcases hf : s.globFile with _ | h <;>
    simp only [wrapLogIfNeeded, hf] <;>
    [simp; cases sr] <;>
    split_ifs <;>
    simp_all [SetFile] <;>
    split_ifs <;>
    simp

/-- Below the gate, `loglevel` does nothing at all. -/
theorem loglevel_below (env : WrapEnv) (lvl : Int) (pfx msg : String)
    (s : LogState) (hlt : lvl < s.globLevelSet) :
    loglevel env lvl pfx msg s = ([], some s) := by
  simp only [loglevel]
  rw [if_neg (by omega)]

/-- At or above the gate, when stat succeeds, `loglevel` emits exactly the
tag-prefixed message, once. -/
theorem loglevel_emits (env : WrapEnv) (lvl : Int) (pfx msg : String)
    (s : LogState) (hge : lvl ≥ s.globLevelSet)
    (hs : env.statResult.isSome) :
    emitted (loglevel env lvl pfx msg s).1 = [pfx ++ msg] := by
  have hw := wrap_isSome_of_stat env s hs
  rcases hr : (wrapLogIfNeeded env s).2 with _ | s1
  · rw [hr] at hw; simp at hw
  · simp only [loglevel, if_pos hge, hr]
    rw [emitted_append, wrap_emitted_nil]
    simp [emitted]

/-- C1 (counterexample): the claim says the panic is raised for every
current minimumLevel, independent of the gate check. It is not: with
`minimumLevel = 7` (set by `SetLevel(7)`, which performs no range check),
`Panic` raises no panic at all — the whole body of `Panic`, the `panic`
call included, sits inside `if LvlPanic >= globLevelSet`. -/
theorem C1_counterexample :
    Event.panicEv "boom" ∉ (Panic "boom" highGateState).1 := by
  decide

/-- C1 (amended): the panic raised by `Panic` obeys the same gate
comparison `LvlPanic >= minimumLevel` as the record write: when the gate
passes, `Panic` writes the record and raises the panic carrying the
formatted message; when the gate fails, it does neither and returns
normally. -/
theorem C1_panic_gated (msg : String) (s : LogState) :
    (LvlPanic ≥ s.globLevelSet →
       Panic msg s
         = ([Event.emit ("PANIC - " ++ msg), Event.panicEv msg], s)) ∧
    (LvlPanic < s.globLevelSet → Panic msg s = ([], s)) := by
  constructor
  · intro hge
    simp [Panic, if_pos hge]
  · intro hlt
    simp only [Panic]
    rw [if_neg (by omega)]

/-- C1 (witness): at the default gate level the gate passes and `Panic`
both records and panics. -/
theorem C1_witness :
    LvlPanic ≥ initState.globLevelSet ∧
    Panic "m" initState
      = ([Event.emit ("PANIC - " ++ "m"), Event.panicEv "m"], initState) :=
  ⟨by decide, (C1_panic_gated "m" initState).1 (by decide)⟩

/-- C2 (counterexample): the claim says a failed `SetFile` leaves the
previous Destination state (active file name, file handle, output routing)
completely unchanged. It does not: starting from an active file `old.log`
(handle 0), a failed `SetFile("new.log", 5)` overwrites the stored file
name with `new.log` and clears the stored handle to nil. -/
theorem C2_counterexample :
    ¬ ((SetFile false "new.log" 5 oldFileState).1.globFileName
         = oldFileState.globFileName ∧
       (SetFile false "new.log" 5 oldFileState).1.globFile
         = oldFileState.globFile) := by
  decide

/-- C2 (amended): on open failure `SetFile` returns the underlying
non-nil error and leaves the output routing, the size limit, the gate
level and the rotation counter unchanged — but it has already overwritten
the stored file name with the attempted path, and it sets the stored file
handle to nil (so the rotation step no longer sees a file destination). -/
theorem C2_setfile_failure (fileName : String) (maxSizeKB : Int)
    (s : LogState) :
    (SetFile false fileName maxSizeKB s).2.2 = some GoErr.openErr ∧
    (SetFile false fileName maxSizeKB s).1.logOutput = s.logOutput ∧
    (SetFile false fileName maxSizeKB s).1.globMaxSizeKB = s.globMaxSizeKB ∧
    (SetFile false fileName maxSizeKB s).1.globLevelSet = s.globLevelSet ∧
    (SetFile false fileName maxSizeKB s).1.globCounter = s.globCounter ∧
    (SetFile false fileName maxSizeKB s).1.globFileName = fileName ∧
    (SetFile false fileName maxSizeKB s).1.globFile = none := by
  simp [SetFile]

/-- C3 (counterexample): the claim says `SetLevel` acquires the
process-wide lock for the duration of its update. It does not: the trace
of `SetLevel` contains no lock acquisition at all. -/
theorem C3_counterexample :
    Event.lock ∉ (SetLevel 5 initState).2 := by
  decide

/-- C3 (amended): only the rotation-check-and-possibly-rotate sequence
acquires the mutual-exclusion lock, holding it for its whole duration
(its trace begins with lock and ends with the deferred unlock on every
path); `SetLevel` and `SetFile` mutate the shared state without ever
touching the lock. -/
theorem C3_lock_discipline (env : WrapEnv) (s : LogState) (lvl : Int)
    (fileName : String) (maxSizeKB : Int) (openOk : Bool) :
    (wrapLogIfNeeded env s).1.head? = some Event.lock ∧
    (wrapLogIfNeeded env s).1.getLast? = some Event.unlock ∧
    Event.lock ∉ (SetLevel lvl s).2 ∧
    Event.unlock ∉ (SetLevel lvl s).2 ∧
    Event.lock ∉ (SetFile openOk fileName maxSizeKB s).2.1 ∧
    Event.unlock ∉ (SetFile openOk fileName maxSizeKB s).2.1 := by
  obtain ⟨sr, ro⟩ := env
  refine ⟨?_, ?_, ?_, ?_, ?_, ?_⟩
  · rcases hf : s.globFile with _ | h
    · simp [wrapLogIfNeeded, hf]
    · cases sr <;>
        simp only [wrapLogIfNeeded, hf] <;>
        split_ifs <;>
        simp [SetFile]
  · rcases hf : s.globFile with _ | h
    · simp [wrapLogIfNeeded, hf]
    · cases sr <;>
        simp only [wrapLogIfNeeded, hf] <;>
        split_ifs <;>
        simp [SetFile] <;>
        split_ifs <;>
        simp
  · simp [SetLevel]
  · simp [SetLevel]
  · cases openOk <;> simp [SetFile]
  · cases openOk <;> simp [SetFile]

/-- C4: the claim that every rotation-time I/O failure is swallowed and
never crashes the caller is the documented intent (the source discards
the stat error with `info, _ := globFile.Stat()`), but the code then
calls `info.Size()` on the nil FileInfo interface, which is a Go runtime
panic that propagates to the calling program. First conjunct: on the call
where the size check fires, a failed stat crashes (`none`) after sync and
stat, before any rotation work. Second conjunct: the other failures are
indeed swallowed — a failed re-open after rotation degrades to the
default stream without crashing. -/
theorem C4_stat_failure_crash :
    wrapLogIfNeeded { statResult := none, reopenOk := true } checkState
      = ([Event.lock, Event.sync 0, Event.stat 0 false, Event.unlock],
         none) ∧
    (wrapLogIfNeeded { statResult := some 2048, reopenOk := false }
        checkState).2
      = some { checkState with
               globCounter := 0
               globFile := none
               logOutput := Output.stderr } := by
  constructor
  · rfl
  · rfl

/-- A file-logging state whose gate level admits every severity. -/
def traceGateState : LogState :=
  { oldFileState with globLevelSet := 1 }

/-- C5 (counterexample): the claim says every gated log call, Panic
included, increments the rotation counter while a file destination is
active. `Panic` does not: with an active file and a passing gate, the
counter is left unchanged (Panic never invokes the rotation step). -/
theorem C5_counterexample :
    ¬ ((Panic "m" oldFileState).2.globCounter
         = oldFileState.globCounter + 1) := by
  decide

/-- C5 (amended): the five non-Panic entry points, on a gated call with an
active file destination (below the check interval), run the record through
the rotation step — acquiring the lock and incrementing the rotation
counter — before the single emission; `Panic` bypasses the rotation step
entirely: it emits and panics without touching the lock, the counter, or
any other state. -/
theorem C5_rotation_step (env : WrapEnv) (msg : String) (s : LogState)
    (h : Nat) (hf : s.globFile = some h) (hc : s.globCounter + 1 < 20)
    (hl : s.globLevelSet ≤ 1) :
    Trace env msg s
      = ([Event.lock, Event.unlock, Event.emit ("TRACE - " ++ msg)],
         some { s with globCounter := s.globCounter + 1 }) ∧
    Debug env msg s
      = ([Event.lock, Event.unlock, Event.emit ("DEBUG - " ++ msg)],
         some { s with globCounter := s.globCounter + 1 }) ∧
    Info env msg s
      = ([Event.lock, Event.unlock, Event.emit ("INFO - " ++ msg)],
         some { s with globCounter := s.globCounter + 1 }) ∧
    Warn env msg s
      = ([Event.lock, Event.unlock, Event.emit ("WARN - " ++ msg)],
         some { s with globCounter := s.globCounter + 1 }) ∧
    Error env msg s
      = ([Event.lock, Event.unlock, Event.emit ("ERROR - " ++ msg)],
         some { s with globCounter := s.globCounter + 1 }) ∧
    Panic msg s
      = ([Event.emit ("PANIC - " ++ msg), Event.panicEv msg], s) := by
  have hw := wrap_below_interval env s h hf hc
  have h1 : (1 : Int) ≥ s.globLevelSet := hl
  have h2 : (2 : Int) ≥ s.globLevelSet := by omega
  have h3 : (3 : Int) ≥ s.globLevelSet := by omega
  have h4 : (4 : Int) ≥ s.globLevelSet := by omega
  have h5 : (5 : Int) ≥ s.globLevelSet := by omega
  have h6 : (6 : Int) ≥ s.globLevelSet := by omega
  refine ⟨?_, ?_, ?_, ?_, ?_, ?_⟩
  · simp [Trace, loglevel, LvlTrace, h1, hw]
  · simp [Debug, loglevel, LvlDebug, h2, hw]
  · simp [Info, loglevel, LvlInfo, h3, hw]
  · simp [Warn, loglevel, LvlWarn, h4, hw]
  · simp [Error, loglevel, LvlError, h5, hw]
  · simp [Panic, LvlPanic, h6]

/-- C5 (witness): at a concrete file-logging state that admits every
level, `Panic` emits and panics without entering the rotation step. -/
theorem C5_witness :
    traceGateState.globFile = some 0 ∧
    traceGateState.globCounter + 1 < 20 ∧
    traceGateState.globLevelSet ≤ 1 ∧
    Panic "m" traceGateState
      = ([Event.emit ("PANIC - " ++ "m"), Event.panicEv "m"],
         traceGateState) :=
  ⟨rfl, by decide, by decide,
   (C5_rotation_step { statResult := some 0, reopenOk := true } "m"
      traceGateState 0 rfl (by decide) (by decide)).2.2.2.2.2⟩

/-- C6 (counterexample): the claim says a successful `SetFile` resets the
Rotation Counter to 0 regardless of its previous value. It does not:
starting from counter 7, a successful `SetFile("x.log", 1)` leaves the
counter at 7 (the source never touches `globCounter`). -/
theorem C6_counterexample :
    ¬ ((SetFile true "x.log" 1 counterState).1.globCounter = 0) := by
  decide

/-- C6 (amended): after a successful `SetFile(path, sizeLimitKB)`, the
freshly opened file is the active Destination, the `log` package output is
redirected through its handle, the stored name and size limit are the new
ones, and the call returns a nil error — but the Rotation Counter keeps
whatever value it had before the call. -/
theorem C6_setfile_success (fileName : String) (maxSizeKB : Int)
    (s : LogState) :
    (SetFile true fileName maxSizeKB s).2.2 = none ∧
    (SetFile true fileName maxSizeKB s).1.globFile = some s.nextHandle ∧
    (SetFile true fileName maxSizeKB s).1.globFileName = fileName ∧
    (SetFile true fileName maxSizeKB s).1.logOutput
      = Output.handle s.nextHandle ∧
    (SetFile true fileName maxSizeKB s).1.globMaxSizeKB = maxSizeKB ∧
    (SetFile true fileName maxSizeKB s).1.globCounter = s.globCounter := by
  simp [SetFile]

/-- C7: for every severity and every non-Panic entry point, a call below
the gate produces no observable effect at all, and a call at or above the
gate (under a successful size check) emits exactly one line, carrying the
entry point's level tag; the default gate level is `LvlInfo`. -/
theorem C7_level_gate (env : WrapEnv) (msg : String) (s : LogState)
    (hs : env.statResult.isSome) :
    (LvlTrace < s.globLevelSet → Trace env msg s = ([], some s)) ∧
    (LvlTrace ≥ s.globLevelSet →
       emitted (Trace env msg s).1 = ["TRACE - " ++ msg]) ∧
    (LvlDebug < s.globLevelSet → Debug env msg s = ([], some s)) ∧
    (LvlDebug ≥ s.globLevelSet →
       emitted (Debug env msg s).1 = ["DEBUG - " ++ msg]) ∧
    (LvlInfo < s.globLevelSet → Info env msg s = ([], some s)) ∧
    (LvlInfo ≥ s.globLevelSet →
       emitted (Info env msg s).1 = ["INFO - " ++ msg]) ∧
    (LvlWarn < s.globLevelSet → Warn env msg s = ([], some s)) ∧
    (LvlWarn ≥ s.globLevelSet →
       emitted (Warn env msg s).1 = ["WARN - " ++ msg]) ∧
    (LvlError < s.globLevelSet → Error env msg s = ([], some s)) ∧
    (LvlError ≥ s.globLevelSet →
       emitted (Error env msg s).1 = ["ERROR - " ++ msg]) ∧
    initState.globLevelSet = LvlInfo :=
  ⟨fun hlt => loglevel_below env LvlTrace "TRACE - " msg s hlt,
   fun hge => loglevel_emits env LvlTrace "TRACE - " msg s hge hs,
   fun hlt => loglevel_below env LvlDebug "DEBUG - " msg s hlt,
   fun hge => loglevel_emits env LvlDebug "DEBUG - " msg s hge hs,
   fun hlt => loglevel_below env LvlInfo "INFO - " msg s hlt,
   fun hge => loglevel_emits env LvlInfo "INFO - " msg s hge hs,
   fun hlt => loglevel_below env LvlWarn "WARN - " msg s hlt,
   fun hge => loglevel_emits env LvlWarn "WARN - " msg s hge hs,
   fun hlt => loglevel_below env LvlError "ERROR - " msg s hlt,
   fun hge => loglevel_emits env LvlError "ERROR - " msg s hge hs,
   rfl⟩

/-- C7 (witness): at the default state, a Trace call (below Info) does
nothing and an Info call emits exactly its tagged line. -/
theorem C7_witness :
    ({ statResult := some 0, reopenOk := true } : WrapEnv).statResult.isSome
      ∧
    Trace { statResult := some 0, reopenOk := true } "m" initState
      = ([], some initState) ∧
    emitted (Info { statResult := some 0, reopenOk := true } "m"
        initState).1
      = ["INFO - " ++ "m"] :=
  ⟨by decide,
   (C7_level_gate { statResult := some 0, reopenOk := true } "m" initState
      (by decide)).1 (by decide),
   (C7_level_gate { statResult := some 0, reopenOk := true } "m" initState
      (by decide)).2.2.2.2.2.1 (by decide)⟩

/-- C8: while a file destination is active, a rotation-step call on which
the incremented counter is still below the check interval (20) does
nothing but take the lock and bump the counter — no stat, no rotation, no
rename — for every environment, including ones where the file size already
exceeds the ceiling. -/
theorem C8_no_early_rotation (env : WrapEnv) (s : LogState) (h : Nat)
    (hf : s.globFile = some h) (hc : s.globCounter + 1 < 20) :
    wrapLogIfNeeded env s
      = ([Event.lock, Event.unlock],
         some { s with globCounter := s.globCounter + 1 }) ∧
    ∀ a b, Event.rename a b ∉ (wrapLogIfNeeded env s).1 := by
  have hw := wrap_below_interval env s h hf hc
  refine ⟨hw, ?_⟩
  intro a b
  rw [hw]
  simp

/-- C8 (witness): with the file already far past its 10 KB ceiling
(999999 bytes reported by stat) but the counter at 0, no rotation
happens: the call only increments the counter. -/
theorem C8_witness :
    oldFileState.globFile = some 0 ∧
    oldFileState.globCounter + 1 < 20 ∧
    wrapLogIfNeeded { statResult := some 999999, reopenOk := true }
        oldFileState
      = ([Event.lock, Event.unlock],
         some { oldFileState with
                globCounter := oldFileState.globCounter + 1 }) :=
  ⟨rfl, by decide,
   (C8_no_early_rotation { statResult := some 999999, reopenOk := true }
      oldFileState 0 rfl (by decide)).1⟩

/-- C9: on a call where the size check fires (incremented counter reaches
20) and stat succeeds with `sz` bytes, the size in KB is the floor of
`sz / 1024`, and rotation (the rename of the file to its `.1` backup) is
performed if and only if that KB value is at least the configured
ceiling: when it is, the trace contains the rename; when it is not, the
call only resets the counter after sync and stat. -/
theorem C9_size_check (s : LogState) (h : Nat) (sz : Nat) (re : Bool)
    (hf : s.globFile = some h) (hc : s.globCounter + 1 ≥ 20) :
    (((sz / 1024 : Nat) : Int) ≥ s.globMaxSizeKB →
       Event.rename s.globFileName (s.globFileName ++ ".1")
         ∈ (wrapLogIfNeeded { statResult := some sz, reopenOk := re }
              s).1) ∧
    (((sz / 1024 : Nat) : Int) < s.globMaxSizeKB →
       wrapLogIfNeeded { statResult := some sz, reopenOk := re } s
         = ([Event.lock, Event.sync h, Event.stat h true, Event.unlock],
            some { s with globCounter := 0 })) := by
  constructor
  · intro hge
    have hge' : s.globMaxSizeKB ≤ (sz : Int) / 1024 := by
      have h1 := hge
      simp only [Int.natCast_div, Nat.cast_ofNat] at h1
      exact h1
    simp [wrapLogIfNeeded, hf, hc, hge', SetFile]
  · intro hlt
    have hng : ¬ (s.globMaxSizeKB ≤ (sz : Int) / 1024) := by
      have h1 := hlt
      simp only [Int.natCast_div, Nat.cast_ofNat] at h1
      exact not_le.mpr h1
    simp [wrapLogIfNeeded, hf, hc, hng]

/-- C9 (witness): with the counter about to reach 20, a 1 KB ceiling and
a 2048-byte file (2 KB ≥ 1 KB), the firing check renames `old.log` to
`old.log.1`. -/
theorem C9_witness :
    checkState.globFile = some 0 ∧
    checkState.globCounter + 1 ≥ 20 ∧
    ((2048 / 1024 : Nat) : Int) ≥ checkState.globMaxSizeKB ∧
    Event.rename checkState.globFileName (checkState.globFileName ++ ".1")
      ∈ (wrapLogIfNeeded { statResult := some 2048, reopenOk := true }
           checkState).1 :=
  ⟨rfl, by decide, by decide,
   (C9_size_check checkState 0 2048 true rfl (by decide)).1 (by decide)⟩

/-- C10: `SetLevel` stores any integer level without range checking, and
once the gate level is strictly above `LvlPanic` every entry point is
fully suppressed: the five non-Panic calls do nothing, and `Panic`
neither emits a record nor panics — it returns normally with the state
unchanged. -/
theorem C10_no_range_check (env : WrapEnv) (msg : String) (s : LogState)
    (l : Int) (hl : s.globLevelSet > LvlPanic) :
    (SetLevel l s).1.globLevelSet = l ∧
    Trace env msg s = ([], some s) ∧
    Debug env msg s = ([], some s) ∧
    Info env msg s = ([], some s) ∧
    Warn env msg s = ([], some s) ∧
    Error env msg s = ([], some s) ∧
    Panic msg s = ([], s) := by
  have h6 : (6 : Int) < s.globLevelSet := hl
  refine ⟨rfl, ?_, ?_, ?_, ?_, ?_, ?_⟩
  · exact loglevel_below env LvlTrace "TRACE - " msg s
      (show (1 : Int) < s.globLevelSet by omega)
  · exact loglevel_below env LvlDebug "DEBUG - " msg s
      (show (2 : Int) < s.globLevelSet by omega)
  · exact loglevel_below env LvlInfo "INFO - " msg s
      (show (3 : Int) < s.globLevelSet by omega)
  · exact loglevel_below env LvlWarn "WARN - " msg s
      (show (4 : Int) < s.globLevelSet by omega)
  · exact loglevel_below env LvlError "ERROR - " msg s
      (show (5 : Int) < s.globLevelSet by omega)
  · simp only [Panic, LvlPanic]
    rw [if_neg (show ¬ ((6 : Int) ≥ s.globLevelSet) by omega)]

/-- C10 (witness): after `SetLevel(7)`, `SetLevel(-5)` still stores -5
as-is, and `Panic` at gate level 7 does nothing and returns. -/
theorem C10_witness :
    highGateState.globLevelSet > LvlPanic ∧
    (SetLevel (-5) highGateState).1.globLevelSet = -5 ∧
    Panic "m" highGateState = ([], highGateState) :=
  ⟨by decide,
   (C10_no_range_check { statResult := some 0, reopenOk := true } "m"
      highGateState (-5) (by decide)).1,
   (C10_no_range_check { statResult := some 0, reopenOk := true } "m"
      highGateState (-5) (by decide)).2.2.2.2.2.2⟩

end Llog
